import Mathlib

/-!
Verification of the ChocoCrunch analytics dashboard (`src/app.py`).

The program is a Streamlit dashboard.  Its CSV front end loads
`ChocoCrunch_Cleaned_Dataset.csv` into a dataframe, materialises three
SQLite tables from it (`create_sqlite_db`), and runs a fixed catalogue of
SQL queries.  The derived columns (`sugar_to_carb_ratio`,
`calorie_category`, `sugar_category`, `is_ultra_processed`) are copied
verbatim out of the dataframe; the derivation engine itself is not part of
`src/` and is modelled here from the specification where a claim needs it.

Numeric nutrient values are embedded as `Option ℚ` (a missing/null cell is
`none`); NOVA groups as `Option ℤ`.
-/

namespace ChocoCrunch

/-- A row of the cleaned dataset as loaded by `load_data` in `src/app.py`:
identity columns, raw nutrient columns, and the four derived columns that
are already present in the CSV. -/
structure CsvRow where
  product_code : String
  product_name : Option String
  brand : Option String
  energy_kcal : Option ℚ
  energy_kj : Option ℚ
  carbohydrates : Option ℚ
  sugars : Option ℚ
  fat : Option ℚ
  saturated_fat : Option ℚ
  proteins : Option ℚ
  fiber : Option ℚ
  salt : Option ℚ
  sodium : Option ℚ
  nutrition_score : Option ℚ
  nova_group : Option ℤ
  fvn_estimate : Option ℚ
  sugar_to_carb_ratio : Option ℚ
  calorie_category : String
  sugar_category : String
  is_ultra_processed : String
  deriving Repr, DecidableEq

/-- A row of the `product_info` table built by `create_sqlite_db`. -/
structure ProductInfoRow where
  product_code : String
  product_name : Option String
  brand : Option String
  deriving Repr, DecidableEq

/-- A row of the `nutrient_info` table built by `create_sqlite_db`. -/
structure NutrientRow where
  product_code : String
  energy_kcal : Option ℚ
  energy_kj : Option ℚ
  carbohydrates : Option ℚ
  sugars : Option ℚ
  fat : Option ℚ
  saturated_fat : Option ℚ
  proteins : Option ℚ
  fiber : Option ℚ
  salt : Option ℚ
  sodium : Option ℚ
  nutrition_score : Option ℚ
  nova_group : Option ℤ
  fvn_estimate : Option ℚ
  deriving Repr, DecidableEq

/-- A row of the `derived_metrics` table built by `create_sqlite_db`. -/
structure DerivedRow where
  product_code : String
  sugar_to_carb_ratio : Option ℚ
  calorie_category : String
  sugar_category : String
  is_ultra_processed : String
  deriving Repr, DecidableEq

/-- The in-memory database built by `create_sqlite_db`. -/
structure SqliteDb where
  product_info : List ProductInfoRow
  nutrient_info : List NutrientRow
  derived_metrics : List DerivedRow
  deriving Repr, DecidableEq

/-- Projection of a dataframe row onto `product_info`
(the columns product_code, product_name and brand). -/
def projProduct (r : CsvRow) : ProductInfoRow :=
  ⟨r.product_code, r.product_name, r.brand⟩

/-- Projection of a dataframe row onto `nutrient_info` (the `nutrient_cols`
list in `create_sqlite_db`). -/
def projNutrient (r : CsvRow) : NutrientRow :=
  ⟨r.product_code, r.energy_kcal, r.energy_kj, r.carbohydrates, r.sugars,
   r.fat, r.saturated_fat, r.proteins, r.fiber, r.salt, r.sodium,
   r.nutrition_score, r.nova_group, r.fvn_estimate⟩

/-- Projection of a dataframe row onto `derived_metrics` (the `derived_cols`
list in `create_sqlite_db`). -/
def projDerived (r : CsvRow) : DerivedRow :=
  ⟨r.product_code, r.sugar_to_carb_ratio, r.calorie_category,
   r.sugar_category, r.is_ultra_processed⟩

/-- The pandas drop_duplicates call on product_code with the default
keep-first policy: keep the first row for each `product_code`. -/
def dropDuplicatesAux (seen : List String) :
    List ProductInfoRow → List ProductInfoRow
  | [] => []
  | p :: ps =>
    if p.product_code ∈ seen then dropDuplicatesAux seen ps
    else p :: dropDuplicatesAux (p.product_code :: seen) ps

/-- `create_sqlite_db` from `src/app.py`: build `product_info` (deduplicated
on `product_code`), `nutrient_info` and `derived_metrics` directly from the
dataframe columns.  No derived field is computed; all are column
projections of the input dataframe. -/
def create_sqlite_db (df : List CsvRow) : SqliteDb :=
  { product_info := dropDuplicatesAux [] (df.map projProduct)
    nutrient_info := df.map projNutrient
    derived_metrics := df.map projDerived }

/-! ## The derived-metrics engine, modelled from the spec

The spec (sections 3, 4.1, 4.2) describes a `compute_derived` /
`recompute_all` engine that produced the derived columns of the cleaned
CSV.  That code is not under `src/`; the definitions below are modelled
from the words of the specification. -/

/-- Calorie tier labels of the calorie category in the spec. -/
inductive CalorieCategory where
  | lowCalorie
  | moderateCalorie
  | highCalorie
  | unknownCalorie
  deriving Repr, DecidableEq

/-- Sugar tier labels of the sugar category in the spec. -/
inductive SugarCategory where
  | lowSugar
  | moderateSugar
  | highSugar
  | unknownSugar
  deriving Repr, DecidableEq

/-- The yes/no flag of the ultra-processed marker in the spec. -/
inductive UltraFlag where
  | yes
  | no
  deriving Repr, DecidableEq

/-- A raw `ProductRecord` from section 3 of the spec: identity fields plus
optional numeric nutrient fields.  Absent fields default to `none`. -/
structure ProductRecord where
  product_code : String
  product_name : Option String := none
  brand : Option String := none
  energy_kcal : Option ℚ := none
  energy_kj : Option ℚ := none
  carbohydrates : Option ℚ := none
  sugars : Option ℚ := none
  fat : Option ℚ := none
  saturated_fat : Option ℚ := none
  proteins : Option ℚ := none
  fiber : Option ℚ := none
  salt : Option ℚ := none
  sodium : Option ℚ := none
  nutrition_score : Option ℚ := none
  nova_group : Option ℤ := none
  fvn_estimate : Option ℚ := none
  deriving Repr, DecidableEq

/-- `DerivedMetrics` from section 3 of the spec. -/
structure DerivedMetrics where
  sugar_to_carb_ratio : Option ℚ
  calorie_category : CalorieCategory
  sugar_category : SugarCategory
  is_ultra_processed : UltraFlag
  deriving Repr, DecidableEq

/-- Modelled from the spec: the `sugar_to_carb_ratio` rule of section 4.1
(the derivation code is not under `src/`).  If `carbohydrates` is missing,
null, or ≤ 0 the ratio is undefined; otherwise it is
`sugars / carbohydrates`, with a missing `sugars` treated as 0. -/
def sugar_to_carb_ratio_of (carbohydrates sugars : Option ℚ) : Option ℚ :=
  match carbohydrates with
  | none => none
  | some c => if c ≤ 0 then none else some (sugars.getD 0 / c)

/-- Modelled from the spec: the `calorie_category` thresholds of section 4.1
on `energy_kcal` (the derivation code is not under `src/`). -/
def calorie_category_of (energy_kcal : Option ℚ) : CalorieCategory :=
  match energy_kcal with
  | none => .unknownCalorie
  | some x =>
    if x < 300 then .lowCalorie
    else if x < 500 then .moderateCalorie
    else .highCalorie

/-- Modelled from the spec: the `sugar_category` thresholds of section 4.1
on `sugars` (the derivation code is not under `src/`). -/
def sugar_category_of (sugars : Option ℚ) : SugarCategory :=
  match sugars with
  | none => .unknownSugar
  | some x =>
    if x < 5 then .lowSugar
    else if x < 22.5 then .moderateSugar
    else .highSugar

/-- Modelled from the spec: the `is_ultra_processed` rule of section 4.1 on
`nova_group` (the derivation code is not under `src/`). -/
def is_ultra_processed_of (nova_group : Option ℤ) : UltraFlag :=
  match nova_group with
  | none => .no
  | some n => if n = 4 then .yes else .no

/-- Modelled from the spec: `compute_derived(record) -> DerivedMetrics` of
section 4.1 (the derivation code is not under `src/`). -/
def compute_derived (r : ProductRecord) : DerivedMetrics :=
  { sugar_to_carb_ratio := sugar_to_carb_ratio_of r.carbohydrates r.sugars
    calorie_category := calorie_category_of r.energy_kcal
    sugar_category := sugar_category_of r.sugars
    is_ultra_processed := is_ultra_processed_of r.nova_group }

/-- Insert a key/value pair into an association map, replacing the existing
binding for the key when present (so a later write for the same key wins). -/
def upsert (k : String) (v : DerivedMetrics) :
    List (String × DerivedMetrics) → List (String × DerivedMetrics)
  | [] => [(k, v)]
  | (k', v') :: rest =>
    if k' = k then (k, v) :: rest else (k', v') :: upsert k v rest

/-- Modelled from the spec: `recompute_all(records) -> mapping
product_code -> DerivedMetrics` of section 4.2 (the batch-recomputation
code is not under `src/`): apply `compute_derived` to every record in
order, keyed by `product_code`, last write winning on duplicates. -/
def recompute_all (records : List ProductRecord) :
    List (String × DerivedMetrics) :=
  records.foldl (fun m r => upsert r.product_code (compute_derived r) m) []

/-- The keys of an association map. -/
def keysOf (m : List (String × DerivedMetrics)) : List String :=
  m.map Prod.fst

/-! ## The ratio-ordered queries of `src/app.py`

Query 27 (lines 335-350) filters `sugar_to_carb_ratio IS NOT NULL` before
ordering; the Join Queries tab 7 query (lines 1092-1098) orders by the
ratio with no such filter.  SQLite treats `NULL` as smaller than every
value, so `ORDER BY ... DESC` puts null ratios last. -/

/-- SQLite descending comparison on a nullable ratio: `a` may come before
`b` iff `a` is at least `b`, with `NULL` smaller than every value. -/
def ratioGE (a b : Option ℚ) : Bool :=
  match a, b with
  | _, none => true
  | none, some _ => false
  | some x, some y => y ≤ x

/-- Insert a row into a list sorted by descending `sugar_to_carb_ratio`. -/
def insertRatioDesc (x : DerivedRow) : List DerivedRow → List DerivedRow
  | [] => [x]
  | y :: ys =>
    if ratioGE x.sugar_to_carb_ratio y.sugar_to_carb_ratio then x :: y :: ys
    else y :: insertRatioDesc x ys

/-- Sorting by the ratio descending under the SQLite null ordering. -/
def sortRatioDesc : List DerivedRow → List DerivedRow
  | [] => []
  | x :: xs => insertRatioDesc x (sortRatioDesc xs)

/-- Query 27 of `src/app.py` (first front end): join `derived_metrics` with
`product_info` and `nutrient_info`, keep rows with
`sugar_to_carb_ratio IS NOT NULL`, order by the ratio descending, limit 5.
The result is modelled by its `derived_metrics` component. -/
def q27 (db : SqliteDb) : List DerivedRow :=
  (sortRatioDesc (db.derived_metrics.filter (fun d =>
      d.sugar_to_carb_ratio.isSome
      && db.product_info.any (fun p => p.product_code == d.product_code)
      && db.nutrient_info.any (fun n =>
            n.product_code == d.product_code)))).take 5

/-- Join Queries tab 7 of `src/app.py` (second front end): join
`product_info` with `derived_metrics`, order by `sugar_to_carb_ratio`
descending, limit 5 — with no null filter on the ratio. -/
def join_q7 (db : SqliteDb) : List DerivedRow :=
  (sortRatioDesc (db.derived_metrics.filter (fun d =>
      db.product_info.any (fun p =>
        p.product_code == d.product_code)))).take 5

/-! ## The query-execution boundary of `src/app.py` -/

/-- A tabular query result, as rows of cells. -/
abbrev QueryResult := List (List String)

/-- The outcome of running a SQL query: either a result table or the
message of the exception pandas/sqlite raised. -/
abbrev QueryOutcome := Except String QueryResult

/-- `execute_query` from `src/app.py`: run the query; on an exception,
display `❌ Query Error: ...` and return an empty dataframe.  The second
component is the displayed error message, if any. -/
def execute_query (q : QueryOutcome) : QueryResult × Option String :=
  match q with
  | .ok t => (t, none)
  | .error e => ([], some ("❌ Query Error: " ++ e))

/-- The `try/except` around Query 21 in the first front end
displays the message Error executing query followed by the exception
text; this function is that displayed message, if any. -/
def render_query21 (q : QueryOutcome) : Option String :=
  match q with
  | .ok _ => none
  | .error e => some ("Error executing query: " ++ e)

/-- Loading and deriving twice from the same unchanged dataframe. -/
def load_and_derive_twice (df : List CsvRow) : SqliteDb × SqliteDb :=
  (create_sqlite_db df, create_sqlite_db df)

/-- Running `recompute_all` twice on the same unchanged record list. -/
def recompute_all_twice (records : List ProductRecord) :
    List (String × DerivedMetrics) × List (String × DerivedMetrics) :=
  (recompute_all records, recompute_all records)

/-- The ProductRecord of the spec with every optional field missing. -/
def all_missing_record (code : String) : ProductRecord :=
  { product_code := code }

/-- Rank of a present calorie tier, for the monotonicity statement. -/
def calorieRank : CalorieCategory → ℕ
  | .lowCalorie => 0
  | .moderateCalorie => 1
  | .highCalorie => 2
  | .unknownCalorie => 0

/-- Rank of a present sugar tier, for the monotonicity statement. -/
def sugarRank : SugarCategory → ℕ
  | .lowSugar => 0
  | .moderateSugar => 1
  | .highSugar => 2
  | .unknownSugar => 0

/-! ## Claims -/

/-- C1: the `derived_metrics` table produced by `create_sqlite_db` is the
verbatim projection of the input dataframe onto `product_code`,
`sugar_to_carb_ratio`, `calorie_category`, `sugar_category` and
`is_ultra_processed`; the derived fields are read as-is from the input CSV,
with no recomputation anywhere in the load path. -/
theorem c1_derived_metrics_verbatim (df : List CsvRow) :
    (create_sqlite_db df).derived_metrics =
      df.map (fun r =>
        { product_code := r.product_code
          sugar_to_carb_ratio := r.sugar_to_carb_ratio
          calorie_category := r.calorie_category
          sugar_category := r.sugar_category
          is_ultra_processed := r.is_ultra_processed }) := rfl

/-- C2: `sugar_to_carb_ratio` equals `sugars / carbohydrates` whenever
`carbohydrates` is present and strictly positive, and is undefined
(`none`, never coerced to 0) whenever `carbohydrates` is missing or ≤ 0. -/
theorem c2_sugar_to_carb_ratio_rule (c s : ℚ) (s' : Option ℚ) :
    (0 < c → sugar_to_carb_ratio_of (some c) (some s) = some (s / c))
  ∧ sugar_to_carb_ratio_of none s' = none
  ∧ (c ≤ 0 → sugar_to_carb_ratio_of (some c) s' = none) := by
  refine ⟨fun hc => ?_, rfl, fun hc => ?_⟩
  · simp [sugar_to_carb_ratio_of, not_le.mpr hc]
  · simp [sugar_to_carb_ratio_of, hc]

/-- Witness for C2 at `carbohydrates = 20`, `sugars = 5` and at
`carbohydrates = -1`. -/
theorem c2_witness :
    sugar_to_carb_ratio_of (some 20) (some 5) = some (5 / 20)
  ∧ sugar_to_carb_ratio_of none (some 3) = none
  ∧ sugar_to_carb_ratio_of (some (-1)) (some 3) = none := by
  refine ⟨(c2_sugar_to_carb_ratio_rule 20 5 (some 3)).1 (by norm_num),
    (c2_sugar_to_carb_ratio_rule 20 5 (some 3)).2.1,
    (c2_sugar_to_carb_ratio_rule (-1) 5 (some 3)).2.2 (by norm_num)⟩

/-- C3: `calorie_category` is a total, monotonic step function of
`energy_kcal`: missing yields `Unknown`, `< 300` yields `Low Calorie`,
`300 ≤ x < 500` yields `Moderate Calorie`, `≥ 500` yields `High Calorie`,
and exactly 300 is `Moderate Calorie`, not `Low Calorie`. -/
theorem c3_calorie_category_step (x y : ℚ) :
    calorie_category_of none = CalorieCategory.unknownCalorie
  ∧ calorie_category_of (some x) ≠ CalorieCategory.unknownCalorie
  ∧ (x < 300 → calorie_category_of (some x) = CalorieCategory.lowCalorie)
  ∧ (300 ≤ x → x < 500 →
      calorie_category_of (some x) = CalorieCategory.moderateCalorie)
  ∧ (500 ≤ x → calorie_category_of (some x) = CalorieCategory.highCalorie)
  ∧ calorie_category_of (some 300) = CalorieCategory.moderateCalorie
  ∧ (x ≤ y → calorieRank (calorie_category_of (some x)) ≤
      calorieRank (calorie_category_of (some y))) := by
  refine ⟨rfl, ?_, fun h1 => ?_, fun h1 h2 => ?_, fun h1 => ?_, ?_,
    fun hxy => ?_⟩
  · simp only [calorie_category_of]
    split_ifs <;> simp
  · simp [calorie_category_of, h1]
  · simp [calorie_category_of, not_lt.mpr h1, h2]
  · have h2 : ¬ x < 300 := not_lt.mpr (by linarith)
    have h3 : ¬ x < 500 := not_lt.mpr h1
    simp [calorie_category_of, h2, h3]
  · norm_num [calorie_category_of]
  · simp only [calorie_category_of]
    split_ifs <;> first | decide | (exfalso; linarith)

/-- Witness for C3 at energies 250, 300 and 600. -/
theorem c3_witness :
    calorie_category_of (some 250) = CalorieCategory.lowCalorie
  ∧ calorie_category_of (some 300) = CalorieCategory.moderateCalorie
  ∧ calorie_category_of (some 600) = CalorieCategory.highCalorie
  ∧ calorieRank (calorie_category_of (some 250)) ≤
      calorieRank (calorie_category_of (some 600)) := by
  have h := c3_calorie_category_step 250 600
  have h' := c3_calorie_category_step 300 600
  have h'' := c3_calorie_category_step 600 250
  exact ⟨h.2.2.1 (by norm_num),
    h'.2.2.2.1 (by norm_num) (by norm_num),
    h''.2.2.2.2.1 (by norm_num),
    h.2.2.2.2.2.2 (by norm_num)⟩

/-- C4: `sugar_category` is a total step function of `sugars` with
exclusive lower bounds on the higher tiers: missing yields `Unknown`,
`< 5` yields `Low Sugar`, `5 ≤ x < 22.5` yields `Moderate Sugar`,
`≥ 22.5` yields `High Sugar`, and exactly 5 is `Moderate Sugar`. -/
theorem c4_sugar_category_step (x y : ℚ) :
    sugar_category_of none = SugarCategory.unknownSugar
  ∧ sugar_category_of (some x) ≠ SugarCategory.unknownSugar
  ∧ (x < 5 → sugar_category_of (some x) = SugarCategory.lowSugar)
  ∧ (5 ≤ x → x < 22.5 →
      sugar_category_of (some x) = SugarCategory.moderateSugar)
  ∧ (22.5 ≤ x → sugar_category_of (some x) = SugarCategory.highSugar)
  ∧ sugar_category_of (some 5) = SugarCategory.moderateSugar
  ∧ (x ≤ y → sugarRank (sugar_category_of (some x)) ≤
      sugarRank (sugar_category_of (some y))) := by
  refine ⟨rfl, ?_, fun h1 => ?_, fun h1 h2 => ?_, fun h1 => ?_, ?_,
    fun hxy => ?_⟩
  · simp only [sugar_category_of]
    split_ifs <;> simp
  · simp [sugar_category_of, h1]
  · simp [sugar_category_of, not_lt.mpr h1, h2]
  · have h2 : ¬ x < 5 := not_lt.mpr (by linarith)
    have h3 : ¬ x < 22.5 := not_lt.mpr h1
    simp [sugar_category_of, h2, h3]
  · norm_num [sugar_category_of]
  · simp only [sugar_category_of]
    split_ifs <;> first | decide | (exfalso; linarith)

/-- Witness for C4 at sugar contents 3, 5 and 30. -/
theorem c4_witness :
    sugar_category_of (some 3) = SugarCategory.lowSugar
  ∧ sugar_category_of (some 5) = SugarCategory.moderateSugar
  ∧ sugar_category_of (some 30) = SugarCategory.highSugar
  ∧ sugarRank (sugar_category_of (some 3)) ≤
      sugarRank (sugar_category_of (some 30)) := by
  have h := c4_sugar_category_step 3 30
  have h' := c4_sugar_category_step 5 30
  have h'' := c4_sugar_category_step 30 3
  exact ⟨h.2.2.1 (by norm_num),
    h'.2.2.2.1 (by norm_num) (by norm_num),
    h''.2.2.2.2.1 (by norm_num),
    h.2.2.2.2.2.2 (by norm_num)⟩

/-- C5: `is_ultra_processed` is `Yes` iff `nova_group` is exactly 4; any
other present value, and a missing `nova_group`, yield `No`. -/
theorem c5_is_ultra_processed_iff (g : Option ℤ) :
    (is_ultra_processed_of g = UltraFlag.yes ↔ g = some 4)
  ∧ is_ultra_processed_of none = UltraFlag.no
  ∧ (∀ n : ℤ, n ≠ 4 → is_ultra_processed_of (some n) = UltraFlag.no) := by
  refine ⟨?_, rfl, fun n hn => ?_⟩
  · cases g with
    | none => simp [is_ultra_processed_of]
    | some n =>
      simp only [is_ultra_processed_of, Option.some.injEq]
      by_cases h : n = 4
      · simp [h]
      · simp [h]
  · simp [is_ultra_processed_of, hn]

/-- Witness for C5 at NOVA groups 4 and 3. -/
theorem c5_witness :
    is_ultra_processed_of (some 4) = UltraFlag.yes
  ∧ is_ultra_processed_of (some 3) = UltraFlag.no :=
  ⟨(c5_is_ultra_processed_iff (some 4)).1.mpr rfl,
   (c5_is_ultra_processed_iff (some 3)).2.2 3 (by decide)⟩

/-! ## Association-map lemmas for the batch recomputation -/

/-- Lookup of a product code in the derived mapping. -/
def lookupCode (code : String) :
    List (String × DerivedMetrics) → Option DerivedMetrics
  | [] => none
  | (k, v) :: rest => if k = code then some v else lookupCode code rest

/-- The record that wrote last for a given code: the last element of
`records` whose `product_code` is `code`. -/
def lastWith (code : String) : List ProductRecord → Option ProductRecord
  | [] => none
  | r :: rs =>
    match lastWith code rs with
    | some r' => some r'
    | none => if r.product_code = code then some r else none

theorem lookupCode_upsert_self (k : String) (v : DerivedMetrics)
    (m : List (String × DerivedMetrics)) :
    lookupCode k (upsert k v m) = some v := by
  induction m with
  | nil => simp [upsert, lookupCode]
  | cons p rest ih =>
    obtain ⟨k', v'⟩ := p
    by_cases h : k' = k
    · simp [upsert, h, lookupCode]
    · simp [upsert, h, lookupCode, ih]

@[simp] theorem keysOf_nil : keysOf [] = [] := rfl

@[simp] theorem keysOf_cons (k : String) (v : DerivedMetrics)
    (m : List (String × DerivedMetrics)) :
    keysOf ((k, v) :: m) = k :: keysOf m := rfl

theorem lookupCode_upsert_ne (k c : String) (v : DerivedMetrics)
    (m : List (String × DerivedMetrics)) (h : c ≠ k) :
    lookupCode c (upsert k v m) = lookupCode c m := by
  have hk' : k ≠ c := Ne.symm h
  induction m with
  | nil => simp [upsert, lookupCode, hk']
  | cons p rest ih =>
    obtain ⟨k', v'⟩ := p
    by_cases hk : k' = k
    · subst hk
      simp [upsert, lookupCode, hk']
    · simp [upsert, hk, lookupCode, ih]

theorem mem_keysOf_upsert {c k : String} {v : DerivedMetrics}
    {m : List (String × DerivedMetrics)}
    (h : c ∈ keysOf (upsert k v m)) : c ∈ keysOf m ∨ c = k := by
  induction m with
  | nil =>
    simp only [upsert, keysOf_cons, keysOf_nil] at h
    exact Or.inr (by simpa using h)
  | cons p rest ih =>
    obtain ⟨k', v'⟩ := p
    by_cases hk : k' = k
    · subst hk
      simp only [upsert, if_pos rfl, keysOf_cons] at h
      rcases List.mem_cons.mp h with h | h
      · exact Or.inr h
      · exact Or.inl (List.mem_cons.mpr (Or.inr h))
    · simp only [upsert, if_neg hk, keysOf_cons] at h
      rcases List.mem_cons.mp h with h | h
      · exact Or.inl (List.mem_cons.mpr (Or.inl h))
      · rcases ih h with h' | h'
        · exact Or.inl (List.mem_cons.mpr (Or.inr h'))
        · exact Or.inr h'

theorem nodup_keysOf_upsert (k : String) (v : DerivedMetrics)
    (m : List (String × DerivedMetrics)) (h : (keysOf m).Nodup) :
    (keysOf (upsert k v m)).Nodup := by
  induction m with
  | nil => simp [upsert]
  | cons p rest ih =>
    obtain ⟨k', v'⟩ := p
    rw [keysOf_cons, List.nodup_cons] at h
    obtain ⟨hk'', hrest⟩ := h
    by_cases hk : k' = k
    · subst hk
      simp only [upsert, if_pos rfl, if_true, keysOf_cons, List.nodup_cons]
      exact ⟨hk'', hrest⟩
    · have hrec := ih hrest
      simp only [upsert, if_neg hk, keysOf_cons, List.nodup_cons]
      refine ⟨fun hmem => ?_, hrec⟩
      rcases mem_keysOf_upsert hmem with hm | hm
      · exact hk'' hm
      · exact hk hm

theorem nodup_keysOf_foldl (records : List ProductRecord)
    (m : List (String × DerivedMetrics)) (h : (keysOf m).Nodup) :
    (keysOf (records.foldl
      (fun m r => upsert r.product_code (compute_derived r) m) m)).Nodup := by
  induction records generalizing m with
  | nil => exact h
  | cons r rs ih => exact ih _ (nodup_keysOf_upsert _ _ _ h)

theorem lookupCode_foldl (records : List ProductRecord)
    (m : List (String × DerivedMetrics)) (code : String) :
    lookupCode code (records.foldl
        (fun m r => upsert r.product_code (compute_derived r) m) m) =
      (lastWith code records).elim (lookupCode code m)
        (fun r => some (compute_derived r)) := by
  induction records generalizing m with
  | nil => rfl
  | cons r rs ih =>
    rw [List.foldl_cons, ih]
    cases hlast : lastWith code rs with
    | some r' => simp [lastWith, hlast]
    | none =>
      by_cases hr : r.product_code = code
      · subst hr
        simp [lastWith, hlast, lookupCode_upsert_self]
      · simp [lastWith, hlast, hr, lookupCode_upsert_ne _ _ _ _
          (fun hc => hr hc.symm)]

theorem lastWith_ne_none_of_mem {r : ProductRecord}
    {records : List ProductRecord} (h : r ∈ records) :
    lastWith r.product_code records ≠ none := by
  induction records with
  | nil => cases h
  | cons a rs ih =>
    rcases List.mem_cons.mp h with h1 | h2
    · subst h1
      cases hlast : lastWith r.product_code rs with
      | some r' => simp [lastWith, hlast]
      | none => simp [lastWith, hlast]
    · have hne := ih h2
      cases hlast : lastWith r.product_code rs with
      | some r' => simp [lastWith, hlast]
      | none => exact absurd hlast hne

/-- C7: `recompute_all` maps the input records to a mapping with unique
`product_code` keys, preserves an entry for every input record (none are
dropped), and on a duplicated `product_code` the last occurrence wins. -/
theorem c7_recompute_all_mapping (records : List ProductRecord) :
    (keysOf (recompute_all records)).Nodup
  ∧ (∀ r ∈ records,
      lookupCode r.product_code (recompute_all records) ≠ none)
  ∧ (∀ code, lookupCode code (recompute_all records) =
      (lastWith code records).map compute_derived) := by
  have hlook : ∀ code, lookupCode code (recompute_all records) =
      (lastWith code records).elim none
        (fun r => some (compute_derived r)) := by
    intro code
    simpa [recompute_all, lookupCode] using lookupCode_foldl records [] code
  refine ⟨nodup_keysOf_foldl records [] (by simp [keysOf]), ?_, ?_⟩
  · intro r hr
    rw [hlook r.product_code]
    cases hlast : lastWith r.product_code records with
    | none => exact absurd hlast (lastWith_ne_none_of_mem hr)
    | some r' => simp
  · intro code
    rw [hlook code]
    cases lastWith code records <;> rfl

/-- A first record for the duplicate-key scenario. -/
def rec1 : ProductRecord := { product_code := "p", sugars := some 30 }

/-- A second record with the same product code and different values. -/
def rec2 : ProductRecord := { product_code := "p", sugars := some 2 }

/-- Witness for C7: on a two-record input with duplicated code `p`, the
mapping holds exactly the derived metrics of the second record. -/
theorem c7_witness :
    lookupCode "p" (recompute_all [rec1, rec2]) =
      some (compute_derived rec2)
  ∧ lookupCode "p" (recompute_all [rec1, rec2]) ≠ none := by
  have h := c7_recompute_all_mapping [rec1, rec2]
  refine ⟨?_, h.2.1 rec1 (by simp)⟩
  rw [h.2.2 "p"]
  rfl

/-- C8: the derivation pipeline is total: a record with all nutrient
fields missing still yields a `DerivedMetrics` value (the defensive
`Unknown`/undefined defaults), and `recompute_all` produces a defined
entry for every input record, whatever combination of optional fields is
missing. -/
theorem c8_pipeline_total (code : String) (records : List ProductRecord) :
    compute_derived (all_missing_record code) =
      { sugar_to_carb_ratio := none
        calorie_category := CalorieCategory.unknownCalorie
        sugar_category := SugarCategory.unknownSugar
        is_ultra_processed := UltraFlag.no }
  ∧ (∀ r ∈ records, ∃ d,
      lookupCode r.product_code (recompute_all records) = some d) := by
  refine ⟨rfl, fun r hr => ?_⟩
  have h := lookupCode_foldl records [] r.product_code
  cases hlast : lastWith r.product_code records with
  | none => exact absurd hlast (lastWith_ne_none_of_mem hr)
  | some r' =>
    refine ⟨compute_derived r', ?_⟩
    simpa [recompute_all, hlast] using h

/-- Witness for C8: the all-missing record maps to the defaults, and a
singleton all-missing dataset still produces an entry. -/
theorem c8_witness :
    compute_derived (all_missing_record "p") =
      { sugar_to_carb_ratio := none
        calorie_category := CalorieCategory.unknownCalorie
        sugar_category := SugarCategory.unknownSugar
        is_ultra_processed := UltraFlag.no }
  ∧ (∃ d, lookupCode "p"
      (recompute_all [all_missing_record "p"]) = some d) :=
  ⟨(c8_pipeline_total "p" [all_missing_record "p"]).1,
   (c8_pipeline_total "p" [all_missing_record "p"]).2
     (all_missing_record "p") (by simp)⟩

/-- C9: running the load-and-derive step (or the batch recomputation)
twice on an unchanged dataset yields identical derived output. -/
theorem c9_recompute_twice_identical (df : List CsvRow)
    (records : List ProductRecord) :
    (load_and_derive_twice df).1 = (load_and_derive_twice df).2
  ∧ (recompute_all_twice records).1 = (recompute_all_twice records).2 :=
  ⟨rfl, rfl⟩

/-! ## Ratio-ordered queries: null handling -/

theorem mem_insertRatioDesc {r x : DerivedRow} {l : List DerivedRow} :
    r ∈ insertRatioDesc x l ↔ r = x ∨ r ∈ l := by
  induction l with
  | nil => simp [insertRatioDesc]
  | cons y ys ih =>
    simp only [insertRatioDesc]
    split_ifs with h
    · simp [List.mem_cons]
    · simp only [List.mem_cons, ih]
      tauto

theorem mem_sortRatioDesc {r : DerivedRow} {l : List DerivedRow} :
    r ∈ sortRatioDesc l ↔ r ∈ l := by
  induction l with
  | nil => simp [sortRatioDesc]
  | cons y ys ih =>
    simp only [sortRatioDesc, mem_insertRatioDesc, List.mem_cons, ih]

/-- The counterexample dataframe row for C6: a product whose
`sugar_to_carb_ratio` is null in the CSV. -/
def null_ratio_row : CsvRow :=
  { product_code := "p1", product_name := some "candy", brand := some "b",
    energy_kcal := none, energy_kj := none, carbohydrates := none,
    sugars := none, fat := none, saturated_fat := none, proteins := none,
    fiber := none, salt := none, sodium := none, nutrition_score := none,
    nova_group := none, fvn_estimate := none,
    sugar_to_carb_ratio := none, calorie_category := "Unknown",
    sugar_category := "Unknown", is_ultra_processed := "No" }

/-- Counterexample to C6: the Join Queries tab 7 query orders by
`sugar_to_carb_ratio` but has no null filter, so on a dataset with one
null-ratio product that record appears in the ratio-ordered result — it is
not excluded via null-safe filtering, refuting the claim for this query. -/
theorem c6_counterexample :
    join_q7 (create_sqlite_db [null_ratio_row]) =
      [projDerived null_ratio_row]
  ∧ projDerived null_ratio_row ∈ join_q7 (create_sqlite_db [null_ratio_row])
  ∧ (projDerived null_ratio_row).sugar_to_carb_ratio = none := by
  refine ⟨rfl, ?_, rfl⟩
  rw [show join_q7 (create_sqlite_db [null_ratio_row]) =
    [projDerived null_ratio_row] from rfl]
  exact List.mem_singleton.mpr rfl

/-- C6 amended: Query 27 null-safe-filters the ratio, so every row of its
result has a defined `sugar_to_carb_ratio`; the Join Queries tab 7 query
performs no such filter (its output is just rows of `derived_metrics`,
possibly with undefined ratio, placed last by the SQLite null ordering);
neither query raises on an undefined ratio. -/
theorem c6_amended_null_handling (db : SqliteDb) :
    (∀ r ∈ q27 db, r.sugar_to_carb_ratio ≠ none)
  ∧ (∀ r ∈ join_q7 db, r ∈ db.derived_metrics) := by
  constructor
  · intro r hr hnone
    have h2 := mem_sortRatioDesc.mp (List.mem_of_mem_take hr)
    have h3 := (List.mem_filter.mp h2).2
    rw [hnone] at h3
    simp at h3
  · intro r hr
    exact (List.mem_filter.mp
      (mem_sortRatioDesc.mp (List.mem_of_mem_take hr))).1

/-- The witness dataframe row for C6: a product with a defined ratio. -/
def defined_ratio_row : CsvRow :=
  { product_code := "p2", product_name := some "bar", brand := some "b",
    energy_kcal := some 520, energy_kj := some 2176,
    carbohydrates := some 50, sugars := some 30, fat := some 30,
    saturated_fat := some 18, proteins := some 5, fiber := some 3,
    salt := some 1, sodium := some (2/5), nutrition_score := some 25,
    nova_group := some 4, fvn_estimate := some 0,
    sugar_to_carb_ratio := some (3/5),
    calorie_category := "High Calorie", sugar_category := "High Sugar",
    is_ultra_processed := "Yes" }

/-- Witness for the amended C6: on a singleton defined-ratio dataset,
Query 27 returns that row and its ratio is not null. -/
theorem c6_witness :
    (projDerived defined_ratio_row).sugar_to_carb_ratio ≠ none := by
  have h := c6_amended_null_handling (create_sqlite_db [defined_ratio_row])
  have hq : q27 (create_sqlite_db [defined_ratio_row]) =
      [projDerived defined_ratio_row] := rfl
  exact h.1 (projDerived defined_ratio_row)
    (by rw [hq]; exact List.mem_singleton.mpr rfl)

/-- C10: a failing query is caught at the boundary: `execute_query`
returns an empty result set together with a displayable error message
rather than raising, a successful query returns its rows with no error,
and the Query 21 handler likewise surfaces the exception as a displayed
message. -/
theorem c10_execute_query_boundary (q : QueryOutcome) :
    (∀ e, q = Except.error e →
        execute_query q = ([], some ("❌ Query Error: " ++ e)))
  ∧ (∀ t, q = Except.ok t → execute_query q = (t, none))
  ∧ (∀ e, q = Except.error e →
        render_query21 q = some ("Error executing query: " ++ e)) := by
  refine ⟨fun e he => ?_, fun t ht => ?_, fun e he => ?_⟩ <;> subst_vars <;> rfl

/-- Witness for C10 at a concrete failing query and a concrete result. -/
theorem c10_witness :
    execute_query (Except.error "no such table: derived_metrics") =
      ([], some ("❌ Query Error: " ++ "no such table: derived_metrics"))
  ∧ execute_query (Except.ok [["716", "Lindt"]]) =
      ([["716", "Lindt"]], none)
  ∧ render_query21 (Except.error "no such table: derived_metrics") =
      some ("Error executing query: " ++ "no such table: derived_metrics") :=
  ⟨(c10_execute_query_boundary _).1 _ rfl,
   (c10_execute_query_boundary _).2.1 _ rfl,
   (c10_execute_query_boundary _).2.2 _ rfl⟩

end ChocoCrunch
